import Mathlib

/-!
# Verification of the ecs-rs world/update core

Shallow embedding of `src/world.rs` and `src/system/mod.rs` of the
`ecs-rs` entity-component-system core, together with proofs of the
lifecycle-protocol properties stated in the specification.

Entities are modelled as natural numbers.  The component store type `C`
and the system-manager state type `S` are kept abstract; the operations
the core consumes from them (`ComponentManager::remove_all`, the
`SystemManager` hooks) are passed as explicit records of functions,
mirroring the Rust trait objects.  Builders and modifiers are modelled
as functions `Nat → C → C` (the Rust `EntityBuilder`/`EntityModifier`
boxes, applied to the stored entity at drain time).

For temporal (ordering) properties the abstract parameters are
instantiated with trace-recording implementations: the component store
is a log of storage actions, and the system manager records every hook
invocation together with a snapshot of the store it was shown.
-/

/-- Modelled from the spec: `entity.rs` (the `EntityManager` validity
registry, its `create`/`remove`/`is_valid` operations and the entity
iterator) is not under `src/`; only its uses in `world.rs` are.  Per the
spec (§4.1): `create()` allocates a fresh identifier, valid immediately,
never equal to any live entity; `is_valid` answers membership;
`remove` marks the slot invalid and is a no-op on an already-invalid
entity.  We realise this with a monotone counter and a list of live
identifiers. -/
structure EntityManager where
  next : Nat
  valid : List Nat
  deriving Repr, DecidableEq

def EntityManager.new : EntityManager :=
  { next := 0, valid := [] }

def EntityManager.create (em : EntityManager) : Nat × EntityManager :=
  (em.next, { next := em.next + 1, valid := em.next :: em.valid })

def EntityManager.is_valid (em : EntityManager) (e : Nat) : Bool :=
  em.valid.contains e

def EntityManager.remove (em : EntityManager) (e : Nat) : EntityManager :=
  { em with valid := em.valid.erase e }

/-- The `enum Event<'a, T>` from `world.rs`: a pending structural event.
The boxed builder/modifier is a function receiving the stored entity
and the component store. -/
inductive Event (C : Type) where
  | BuildEntity : Nat → (Nat → C → C) → Event C
  | ModifyEntity : Nat → (Nat → C → C) → Event C
  | RemoveEntity : Nat → Event C

/-- The operations `world.rs` consumes from the `ComponentManager`
trait (only `remove_all`; `new` is the initial value of the store). -/
structure ComponentManagerOps (C : Type) where
  remove_all : C → Nat → C

/-- The operations `world.rs` consumes from the `SystemManager` trait:
the three lifecycle hooks (each shown the entity and the current
component store) and the per-tick `update` (processing) step, which
receives the mutable `DataHelper`. -/
structure SystemManagerOps (C S : Type) where
  activated : S → Nat → C → S
  reactivated : S → Nat → C → S
  deactivated : S → Nat → C → S
  update : S → C × EntityManager × List (Event C) → S × (C × EntityManager × List (Event C))

/-- Model of `struct DataHelper<T>` from `world.rs`: the component store, the
validity registry and the deferred event queue. -/
structure DataHelper (C : Type) where
  components : C
  entities : EntityManager
  event_queue : List (Event C)

/-- Model of `struct World<T, U>` from `world.rs`. -/
structure World (C S : Type) where
  systems : S
  data : DataHelper C

/-- Model of `DataHelper::with_entity_data`: if the entity is valid, run the
callback on a scoped view of the components and return `some` of its
result; otherwise return `none` without invoking the callback. -/
def DataHelper.with_entity_data {C R : Type} (d : DataHelper C) (entity : Nat)
    (call : Nat → C → R × C) : Option R × DataHelper C :=
  if d.entities.is_valid entity then
    let rc := call entity d.components
    (some rc.1, { d with components := rc.2 })
  else
    (none, d)

/-- Model of `DataHelper::create_entity`: allocate a fresh entity from the
registry, push a `BuildEntity` event, return the entity. -/
def DataHelper.create_entity {C : Type} (d : DataHelper C)
    (builder : Nat → C → C) : Nat × DataHelper C :=
  let r := d.entities.create
  (r.1, { d with entities := r.2,
                 event_queue := d.event_queue ++ [Event.BuildEntity r.1 builder] })

/-- Model of `DataHelper::modify_entity`: push a `ModifyEntity` event. -/
def DataHelper.modify_entity {C : Type} (d : DataHelper C) (entity : Nat)
    (modifier : Nat → C → C) : DataHelper C :=
  { d with event_queue := d.event_queue ++ [Event.ModifyEntity entity modifier] }

/-- Model of `DataHelper::remove_entity`: push a `RemoveEntity` event. -/
def DataHelper.remove_entity {C : Type} (d : DataHelper C) (entity : Nat) :
    DataHelper C :=
  { d with event_queue := d.event_queue ++ [Event.RemoveEntity entity] }

/-- The free function `process_event` of `world.rs`: apply one
structural event to the component store, the systems and the registry.
Build: run the builder, then `activated`.  Modify: run the modifier,
then `reactivated`.  Remove: `deactivated` first, then
`remove_all`, then invalidate in the registry. -/
def process_event {C S : Type} (cm : ComponentManagerOps C)
    (sm : SystemManagerOps C S) (components : C) (systems : S)
    (entities : EntityManager) : Event C → C × S × EntityManager
  | Event.BuildEntity entity builder =>
      let components := builder entity components
      let systems := sm.activated systems entity components
      (components, systems, entities)
  | Event.ModifyEntity entity modifier =>
      let components := modifier entity components
      let systems := sm.reactivated systems entity components
      (components, systems, entities)
  | Event.RemoveEntity entity =>
      let systems := sm.deactivated systems entity components
      let components := cm.remove_all components entity
      let entities := entities.remove entity
      (components, systems, entities)

/-- The loop body of `World::flush_queue`: fold `process_event` over a
list of drained events. -/
def flushEvents {C S : Type} (cm : ComponentManagerOps C)
    (sm : SystemManagerOps C S) :
    C × S × EntityManager → List (Event C) → C × S × EntityManager
  | st, [] => st
  | (c, s, em), ev :: rest =>
      let r := process_event cm sm c s em ev
      flushEvents cm sm r rest

/-- Model of `World::flush_queue`: drain the whole event queue (the drained
events cannot re-enqueue: `process_event` has no access to the queue)
and apply each in order. -/
def World.flush_queue {C S : Type} (cm : ComponentManagerOps C)
    (sm : SystemManagerOps C S) (w : World C S) : World C S :=
  let r := flushEvents cm sm (w.data.components, w.systems, w.data.entities)
      w.data.event_queue
  { systems := r.2.1,
    data := { components := r.1, entities := r.2.2, event_queue := [] } }

/-- Model of `World::update`: first `flush_queue`, then the systems' per-tick
processing step on the resulting data. -/
def World.update {C S : Type} (cm : ComponentManagerOps C)
    (sm : SystemManagerOps C S) (w : World C S) : World C S :=
  let w1 := w.flush_queue cm sm
  let r := sm.update w1.systems
      (w1.data.components, w1.data.entities, w1.data.event_queue)
  { systems := r.1,
    data := { components := r.2.1, entities := r.2.2.1, event_queue := r.2.2.2 } }

/-- Model of `World::create_entity` (the immediate path): allocate a fresh
entity, run the builder against the store, fire `activated` on the
post-build store, return the entity. -/
def World.create_entity {C S : Type}
    (sm : SystemManagerOps C S) (w : World C S) (builder : Nat → C → C) :
    Nat × World C S :=
  let r := w.data.entities.create
  let components := builder r.1 w.data.components
  let systems := sm.activated w.systems r.1 components
  (r.1, { systems := systems,
          data := { components := components, entities := r.2,
                    event_queue := w.data.event_queue } })

/-- Model of `World::with_entity_data`: same gate as the `DataHelper` version. -/
def World.with_entity_data {C S R : Type} (w : World C S) (entity : Nat)
    (call : Nat → C → R × C) : Option R × World C S :=
  if w.data.entities.is_valid entity then
    let rc := call entity w.data.components
    (some rc.1, { w with data := { w.data with components := rc.2 } })
  else
    (none, w)

/-- Model of `World::entities`: the entity iterator — the sequence of currently
valid entities of the registry.  Modelled from the spec for the missing
`entity.rs` iterator: "a lazy, restartable sequence over
currently-valid entities". -/
def World.entities {C S : Type} (w : World C S) : List Nat :=
  w.data.entities.valid

/-- Model of `World::modify_entity` (the immediate path): run the modifier, then
fire `reactivated` on the post-modify store. -/
def World.modify_entity {C S : Type} (sm : SystemManagerOps C S)
    (w : World C S) (entity : Nat) (modifier : Nat → C → C) : World C S :=
  let components := modifier entity w.data.components
  let systems := sm.reactivated w.systems entity components
  { systems := systems, data := { w.data with components := components } }

/-- Model of `World::remove_entity`: processes a `RemoveEntity` event
immediately via `process_event` (it does not enqueue). -/
def World.remove_entity {C S : Type} (cm : ComponentManagerOps C)
    (sm : SystemManagerOps C S) (w : World C S) (entity : Nat) : World C S :=
  let r := process_event cm sm w.data.components w.systems w.data.entities
      (Event.RemoveEntity entity)
  { systems := r.2.1,
    data := { components := r.1, entities := r.2.2,
              event_queue := w.data.event_queue } }

/-- The `System` trait of `system/mod.rs`: the two overridable hooks a
concrete system supplies (defaults are empty). -/
structure System (C S : Type) where
  activated : S → Nat → C → S
  deactivated : S → Nat → C → S

/-- The default `System::reactivated` of `system/mod.rs`: call
`deactivated`, then `activated`. -/
def System.reactivated {C S : Type} (sys : System C S) (s : S) (e : Nat)
    (c : C) : S :=
  sys.activated (sys.deactivated s e c) e c

/-- The default `System::is_active` of `system/mod.rs`: always true. -/
def System.is_active {C S : Type} (_ : System C S) : Bool :=
  true

/-! ## Trace instrumentation

Concrete instantiations used to observe the order of effects: the
component store is a log of storage actions, the system-manager state a
log of hook observations (each with the store snapshot it was shown).
-/

/-- A storage action recorded by the trace component store. -/
inductive Act where
  | build (e : Nat)
  | modify (e : Nat)
  | removeAll (e : Nat)
  deriving Repr, DecidableEq

/-- An observation recorded by the trace system manager: a lifecycle
hook invocation (with the store snapshot the hook was shown) or the
per-tick processing step (with the store it ran against). -/
inductive Obs where
  | activated (e : Nat) (store : List Act)
  | reactivated (e : Nat) (store : List Act)
  | deactivated (e : Nat) (store : List Act)
  | processed (store : List Act)
  deriving Repr, DecidableEq

/-- The trace component store: `remove_all` appends a purge record. -/
def traceCM : ComponentManagerOps (List Act) :=
  { remove_all := fun c e => c ++ [Act.removeAll e] }

/-- The trace system manager: each hook appends one observation; the
processing step appends a single `processed` marker and leaves the data
untouched. -/
def procSM : SystemManagerOps (List Act) (List Obs) :=
  { activated := fun s e c => s ++ [Obs.activated e c]
    reactivated := fun s e c => s ++ [Obs.reactivated e c]
    deactivated := fun s e c => s ++ [Obs.deactivated e c]
    update := fun s d => (s ++ [Obs.processed d.1], d) }

/-- A structural mutation request, used to build trace event queues. -/
inductive Req where
  | build (e : Nat)
  | modify (e : Nat)
  | remove (e : Nat)
  deriving Repr, DecidableEq

/-- Turn a request into a queued event whose builder/modifier appends
the matching storage action. -/
def Req.toEvent : Req → Event (List Act)
  | Req.build e => Event.BuildEntity e (fun e2 c => c ++ [Act.build e2])
  | Req.modify e => Event.ModifyEntity e (fun e2 c => c ++ [Act.modify e2])
  | Req.remove e => Event.RemoveEntity e

/-- The storage action applying a request records. -/
def Req.storeAct : Req → Act
  | Req.build e => Act.build e
  | Req.modify e => Act.modify e
  | Req.remove e => Act.removeAll e

/-- The kind of an observation, forgetting store snapshots. -/
inductive Tag where
  | act (e : Nat)
  | react (e : Nat)
  | deact (e : Nat)
  | proc
  deriving Repr, DecidableEq

/-- Forget the snapshot of an observation. -/
def Obs.tag : Obs → Tag
  | Obs.activated e _ => Tag.act e
  | Obs.reactivated e _ => Tag.react e
  | Obs.deactivated e _ => Tag.deact e
  | Obs.processed _ => Tag.proc

/-- The lifecycle hook a request fires when applied. -/
def Req.hookTag : Req → Tag
  | Req.build e => Tag.act e
  | Req.modify e => Tag.react e
  | Req.remove e => Tag.deact e

/-- Draining a queue of requests appends exactly the requests' storage
actions to the store log and exactly their hooks (in queue order) to
the system log. -/
theorem flushEvents_trace (reqs : List Req) (c : List Act) (s : List Obs)
    (em : EntityManager) :
    (flushEvents traceCM procSM (c, s, em) (reqs.map Req.toEvent)).1
      = c ++ reqs.map Req.storeAct
    ∧ ((flushEvents traceCM procSM (c, s, em) (reqs.map Req.toEvent)).2.1).map Obs.tag
      = s.map Obs.tag ++ reqs.map Req.hookTag := by
  induction reqs generalizing c s em with
  | nil => simp [flushEvents]
  | cons r rest ih =>
    cases r with
    | build e =>
      have h := ih (c ++ [Act.build e])
        (s ++ [Obs.activated e (c ++ [Act.build e])]) em
      simpa [flushEvents, Req.toEvent, process_event, traceCM, procSM,
        Req.storeAct, Req.hookTag, Obs.tag] using h
    | modify e =>
      have h := ih (c ++ [Act.modify e])
        (s ++ [Obs.reactivated e (c ++ [Act.modify e])]) em
      simpa [flushEvents, Req.toEvent, process_event, traceCM, procSM,
        Req.storeAct, Req.hookTag, Obs.tag] using h
    | remove e =>
      have h := ih (c ++ [Act.removeAll e])
        (s ++ [Obs.deactivated e c]) (em.remove e)
      simpa [flushEvents, Req.toEvent, process_event, traceCM, procSM,
        Req.storeAct, Req.hookTag, Obs.tag] using h

/-! ## Claim theorems -/

/-- C1. `update()` first drains the whole event queue (every queued
event's hook fires, in queue order) and only then runs the systems'
per-tick processing step: in the trace, all hooks of the events queued
at the start of `update` strictly precede the single `processed`
marker, and the queue is empty once the drain finishes, before the
processing step runs. -/
theorem update_drains_queue_before_process (reqs : List Req) (c : List Act)
    (s : List Obs) (em : EntityManager) :
    (World.update traceCM procSM
        { systems := s,
          data := { components := c, entities := em,
                    event_queue := reqs.map Req.toEvent } }).systems.map Obs.tag
      = s.map Obs.tag ++ reqs.map Req.hookTag ++ [Tag.proc]
    ∧ (World.flush_queue traceCM procSM
        { systems := s,
          data := { components := c, entities := em,
                    event_queue := reqs.map Req.toEvent } }).data.event_queue
      = [] := by
  constructor
  · have h := (flushEvents_trace reqs c s em).2
    simp only [procSM] at h
    simp [World.update, World.flush_queue, procSM, Obs.tag, h]
  · simp [World.flush_queue]

/-- C2. Draining the queue is strictly FIFO: for any sequence of
enqueued requests, the system log extends by exactly the requests'
hooks in enqueue order, and the store log by exactly their storage
actions in enqueue order — so an earlier event's application and hook
precede a later event's. -/
theorem flush_queue_fifo (reqs : List Req) (c : List Act) (s : List Obs)
    (em : EntityManager) :
    (World.flush_queue traceCM procSM
        { systems := s,
          data := { components := c, entities := em,
                    event_queue := reqs.map Req.toEvent } }).systems.map Obs.tag
      = s.map Obs.tag ++ reqs.map Req.hookTag
    ∧ (World.flush_queue traceCM procSM
        { systems := s,
          data := { components := c, entities := em,
                    event_queue := reqs.map Req.toEvent } }).data.components
      = c ++ reqs.map Req.storeAct := by
  have h := flushEvents_trace reqs c s em
  exact ⟨by simp [World.flush_queue, h.2], by simp [World.flush_queue, h.1]⟩

/-- C3. Applying a `RemoveEntity` event performs exactly: the
`deactivated` hook (shown the pre-purge store, for any component
manager and system manager), then the component store's `remove_all`,
then the registry invalidation; in the trace instantiation the
`deactivated` observation's snapshot is the store before the purge
record, so the purge never precedes the notification. -/
theorem remove_event_deactivate_then_purge_then_invalidate :
    (∀ {C S : Type} (cm : ComponentManagerOps C) (sm : SystemManagerOps C S)
        (c : C) (s : S) (em : EntityManager) (e : Nat),
      process_event cm sm c s em (Event.RemoveEntity e)
        = (cm.remove_all c e, sm.deactivated s e c, em.remove e))
    ∧ (∀ (c : List Act) (s : List Obs) (em : EntityManager) (e : Nat),
      process_event traceCM procSM c s em (Event.RemoveEntity e)
        = (c ++ [Act.removeAll e], s ++ [Obs.deactivated e c], em.remove e)) :=
  ⟨fun _ _ _ _ _ _ => rfl, fun _ _ _ _ => rfl⟩

/-- C10. The deferred `DataHelper::modify_entity` and
`DataHelper::remove_entity` leave the component store and the registry
(hence every entity's validity) unchanged; their only effect is to
append exactly one event at the tail of the event queue. -/
theorem deferred_modify_remove_only_enqueue {C : Type} (d : DataHelper C)
    (e : Nat) (m : Nat → C → C) :
    d.modify_entity e m
      = { components := d.components, entities := d.entities,
          event_queue := d.event_queue ++ [Event.ModifyEntity e m] }
    ∧ d.remove_entity e
      = { components := d.components, entities := d.entities,
          event_queue := d.event_queue ++ [Event.RemoveEntity e] } :=
  ⟨rfl, rfl⟩

/-- A concrete world used to exhibit the immediate behaviour of
`World::remove_entity`: one valid entity (id 0), empty logs, empty
queue. -/
def removeDemoWorld : World (List Act) (List Obs) :=
  { systems := [],
    data := { components := [],
              entities := (EntityManager.new.create).2,
              event_queue := [] } }

/-- C4 counterexample. `World::remove_entity` does NOT defer through
the event queue: at a concrete world with valid entity 0, the call
itself fires the `deactivated` hook, performs the purge, and
invalidates the entity synchronously, and the event queue stays empty
(no `Remove` event is enqueued). -/
theorem remove_entity_is_not_always_deferred :
    (World.remove_entity traceCM procSM removeDemoWorld 0).data.event_queue = []
    ∧ (World.remove_entity traceCM procSM removeDemoWorld 0).systems
        = [Obs.deactivated 0 []]
    ∧ (World.remove_entity traceCM procSM removeDemoWorld 0).data.components
        = [Act.removeAll 0]
    ∧ (World.remove_entity traceCM procSM removeDemoWorld 0).data.entities.is_valid 0
        = false
    ∧ removeDemoWorld.data.entities.is_valid 0 = true :=
  ⟨rfl, rfl, rfl, by decide, by decide⟩

/-- C4 amended. Only the `DataHelper::remove_entity` path (the one
reachable from inside an update pass) defers removal through the event
queue — it solely appends a `Remove` event; the `World::remove_entity`
path applies the removal synchronously via `process_event` (hook,
purge and invalidation happen during the call) and leaves the queue
untouched. -/
theorem remove_entity_deferred_on_helper_immediate_on_world :
    (∀ {C : Type} (d : DataHelper C) (e : Nat),
      d.remove_entity e
        = { components := d.components, entities := d.entities,
            event_queue := d.event_queue ++ [Event.RemoveEntity e] })
    ∧ (∀ {C S : Type} (cm : ComponentManagerOps C) (sm : SystemManagerOps C S)
        (w : World C S) (e : Nat),
      World.remove_entity cm sm w e
        = { systems := sm.deactivated w.systems e w.data.components,
            data := { components := cm.remove_all w.data.components e,
                      entities := w.data.entities.remove e,
                      event_queue := w.data.event_queue } }) :=
  ⟨fun _ _ => rfl, fun _ _ _ _ => rfl⟩

/-- C5 counterexample. The deferred APIs perform no validity check:
with a fresh registry in which entity 5 is invalid,
`DataHelper::remove_entity` still places a `Remove` event for entity 5
in the queue, and draining applies it — the `deactivated` hook and the
purge fire for the invalid entity (no re-validation). -/
theorem enqueue_accepts_invalid_entity :
    EntityManager.new.is_valid 5 = false
    ∧ (DataHelper.remove_entity
        { components := ([] : List Act), entities := EntityManager.new,
          event_queue := [] } 5).event_queue
      = [Event.RemoveEntity 5]
    ∧ (process_event traceCM procSM [] [] EntityManager.new
        (Event.RemoveEntity 5)).2.1
      = [Obs.deactivated 5 []] :=
  ⟨by decide, rfl, rfl⟩

/-- C5 amended. The deferred mutation APIs check nothing:
`modify_entity` and `remove_entity` append their event for any entity,
valid or invalid, and the drain applies each event's effects (hooks,
purge) without re-validating the entity — `process_event` acts
uniformly in the registry state. -/
theorem deferred_apis_do_not_validate {C S : Type}
    (cm : ComponentManagerOps C) (sm : SystemManagerOps C S)
    (d : DataHelper C) (e : Nat) (m : Nat → C → C) (c : C) (s : S)
    (em : EntityManager) :
    (d.modify_entity e m).event_queue
      = d.event_queue ++ [Event.ModifyEntity e m]
    ∧ (d.remove_entity e).event_queue
      = d.event_queue ++ [Event.RemoveEntity e]
    ∧ process_event cm sm c s em (Event.RemoveEntity e)
      = (cm.remove_all c e, sm.deactivated s e c, em.remove e)
    ∧ process_event cm sm c s em (Event.ModifyEntity e m)
      = (m e c, sm.reactivated s e (m e c), em) :=
  ⟨rfl, rfl, rfl, rfl⟩

/-- A trace-recording instance of the `System` trait of
`system/mod.rs`: each hook appends one observation carrying the store
snapshot it was shown. -/
def traceSystem : System (List Act) (List Obs) :=
  { activated := fun s e c => s ++ [Obs.activated e c],
    deactivated := fun s e c => s ++ [Obs.deactivated e c] }

/-- C8. The default `System::reactivated` is exactly `deactivated`
immediately followed by `activated` on the same entity and component
state: generically it equals that composition, and on the recording
system it appends exactly one `deactivated` observation then one
`activated` observation (both with the same snapshot) and nothing
else. -/
theorem reactivated_default_is_deactivate_then_activate :
    (∀ {C S : Type} (sys : System C S) (s : S) (e : Nat) (c : C),
      sys.reactivated s e c = sys.activated (sys.deactivated s e c) e c)
    ∧ (∀ (s : List Obs) (e : Nat) (c : List Act),
      traceSystem.reactivated s e c
        = s ++ [Obs.deactivated e c, Obs.activated e c]) :=
  ⟨fun _ _ _ _ => rfl,
   fun s e c => by simp [System.reactivated, traceSystem]⟩

/-- C9. The immediate `World::create_entity` allocates the registry's
fresh entity, sets the store to the builder's result, fires `activated`
exactly once on the post-build store (hook after the storage mutation:
in the trace the hook's snapshot already contains the build record),
leaves the queue untouched, and the returned entity is valid in the
resulting world. -/
theorem create_entity_immediate_builds_then_activates :
    (∀ {C S : Type} (sm : SystemManagerOps C S) (w : World C S)
        (b : Nat → C → C),
      (World.create_entity sm w b).1 = w.data.entities.next
      ∧ (World.create_entity sm w b).2.data.components
          = b w.data.entities.next w.data.components
      ∧ (World.create_entity sm w b).2.systems
          = sm.activated w.systems w.data.entities.next
              (b w.data.entities.next w.data.components)
      ∧ (World.create_entity sm w b).2.data.event_queue = w.data.event_queue
      ∧ (World.create_entity sm w b).2.data.entities.is_valid
          (World.create_entity sm w b).1 = true)
    ∧ (∀ (s : List Obs) (c : List Act) (em : EntityManager)
        (q : List (Event (List Act))),
      (World.create_entity procSM
          { systems := s,
            data := { components := c, entities := em, event_queue := q } }
          (fun e2 c2 => c2 ++ [Act.build e2])).2.systems
        = s ++ [Obs.activated em.next (c ++ [Act.build em.next])]) := by
  constructor
  · intro C S sm w b
    refine ⟨rfl, rfl, rfl, rfl, ?_⟩
    simp [World.create_entity, EntityManager.create, EntityManager.is_valid]
  · intro s c em q
    simp [World.create_entity, EntityManager.create, procSM]

/-- C7. Both `with_entity_data` gates return `some` of the callback's
result exactly when the entity is valid.  Valid: the callback runs on
the current components and its result is returned.  Invalid: the
result is `none`, the state is unchanged, and the callback is never
invoked (the outcome is independent of the callback) — a non-fatal
empty result, not an error. -/
theorem with_entity_data_valid_gate {C S R : Type} (d : DataHelper C)
    (w : World C S) (e : Nat) (f g : Nat → C → R × C) :
    ((d.with_entity_data e f).1.isSome = d.entities.is_valid e)
    ∧ (d.entities.is_valid e = true →
        d.with_entity_data e f
          = (some (f e d.components).1,
             { d with components := (f e d.components).2 }))
    ∧ (d.entities.is_valid e = false →
        d.with_entity_data e f = (none, d)
        ∧ d.with_entity_data e f = d.with_entity_data e g)
    ∧ ((w.with_entity_data e f).1.isSome = w.data.entities.is_valid e)
    ∧ (w.data.entities.is_valid e = false →
        w.with_entity_data e f = (none, w)
        ∧ w.with_entity_data e f = w.with_entity_data e g) := by
  refine ⟨?_, ?_, ?_, ?_, ?_⟩
  · by_cases h : d.entities.is_valid e <;>
      simp [DataHelper.with_entity_data, h]
  · intro h; simp [DataHelper.with_entity_data, h]
  · intro h; simp [DataHelper.with_entity_data, h]
  · by_cases h : w.data.entities.is_valid e <;>
      simp [World.with_entity_data, h]
  · intro h; simp [World.with_entity_data, h]

/-- A registry with the single valid entity 0, for the C7 witness. -/
def oneEntityManager : EntityManager :=
  (EntityManager.new.create).2

/-- A concrete data helper for the C7 witness: store is a counter,
entity 0 valid, empty queue. -/
def gateDemoHelper : DataHelper Nat :=
  { components := 0, entities := oneEntityManager, event_queue := [] }

/-- A concrete world wrapping `gateDemoHelper`, for the C7 witness. -/
def gateDemoWorld : World Nat Unit :=
  { systems := (), data := gateDemoHelper }

/-- A concrete callback for the C7 witness. -/
def gateDemoCall (e : Nat) (c : Nat) : Nat × Nat :=
  (c + 7 + e, c)

/-- C7 witness: at concrete inputs, the invalid entity 5 yields `none`
with the helper unchanged, and the valid entity 0 yields `some`. -/
theorem with_entity_data_valid_gate_witness :
    gateDemoHelper.with_entity_data 5 gateDemoCall = (none, gateDemoHelper)
    ∧ (gateDemoHelper.with_entity_data 0 gateDemoCall).1.isSome = true := by
  have h := with_entity_data_valid_gate gateDemoHelper gateDemoWorld 5
    gateDemoCall gateDemoCall
  have h0 := with_entity_data_valid_gate gateDemoHelper gateDemoWorld 0
    gateDemoCall gateDemoCall
  refine ⟨(h.2.2.1 (by decide)).1, ?_⟩
  have hv := h0.1
  simpa [gateDemoHelper, oneEntityManager, EntityManager.new,
    EntityManager.create, EntityManager.is_valid] using hv

/-- An observation of the interest-set system used for the two-phase
tick property: an activation/deactivation hook, or a processing step
recording the set of entities visible to it. -/
inductive Obs6 where
  | hookAct (e : Nat)
  | hookDeact (e : Nat)
  | procSeen (seen : List Nat)
  deriving Repr, DecidableEq

/-- A component manager over a trivial store. -/
def unitCM : ComponentManagerOps Unit :=
  { remove_all := fun c _ => c }

/-- Modelled from the spec: `system/entity.rs` (the `EntitySystem`
machinery driving per-entity processing) is not under `src/`; per the
spec (§4.3, §6), systems keep a system-local index of entities of
interest, built and torn down incrementally by the `activated` /
`deactivated` hooks, and a `process` step observes only that index.
This system manager keeps one such index, records what each process
step can see, and its process step creates one entity through
`DataHelper::create_entity` (the deferred in-tick path); `reactivated`
uses the default deactivate-then-activate semantics. -/
def interestSM : SystemManagerOps Unit (List Nat × List Obs6) :=
  { activated := fun s e _ => (s.1 ++ [e], s.2 ++ [Obs6.hookAct e]),
    reactivated := fun s e _ =>
      ((s.1.erase e) ++ [e], (s.2 ++ [Obs6.hookDeact e]) ++ [Obs6.hookAct e]),
    deactivated := fun s e _ => (s.1.erase e, s.2 ++ [Obs6.hookDeact e]),
    update := fun s d =>
      let d0 : DataHelper Unit :=
        { components := d.1, entities := d.2.1, event_queue := d.2.2 }
      let r := d0.create_entity (fun _ c => c)
      ((s.1, s.2 ++ [Obs6.procSeen s.1]),
       (r.2.components, r.2.entities, r.2.event_queue)) }

/-- C6. An entity created via `create_entity` from inside a system's
process step (here the fresh id `em.next`) is not visible to the
process step of the same tick (that step records exactly the prior
interest set, which does not contain it), but in the next tick the
`activated` hook for it fires during the drain, strictly before that
tick's process step, which then sees it. -/
theorem created_entity_invisible_same_tick_visible_next (em : EntityManager)
    (A : List Nat) (L : List Obs6) (h : em.next ∉ A) :
    ((World.update unitCM interestSM
        ⟨⟨A, L⟩, ⟨(), em, []⟩⟩).systems.2 = L ++ [Obs6.procSeen A])
    ∧ em.next ∉ A
    ∧ ((World.update unitCM interestSM (World.update unitCM interestSM
        ⟨⟨A, L⟩, ⟨(), em, []⟩⟩)).systems.2
      = L ++ [Obs6.procSeen A, Obs6.hookAct em.next,
              Obs6.procSeen (A ++ [em.next])])
    ∧ em.next ∈ A ++ [em.next] := by
  refine ⟨?_, h, ?_, by simp⟩
  · simp [World.update, World.flush_queue, flushEvents, interestSM, unitCM,
      DataHelper.create_entity, EntityManager.create]
  · simp [World.update, World.flush_queue, flushEvents, interestSM, unitCM,
      process_event, DataHelper.create_entity, EntityManager.create]

/-- C6 witness: starting from the fresh registry with an empty
interest set, the created entity 0 is unseen by tick 1's process step,
activated during tick 2's drain, and seen by tick 2's process step. -/
theorem created_entity_two_tick_witness :
    ((World.update unitCM interestSM
        ⟨⟨([] : List Nat), ([] : List Obs6)⟩, ⟨(), EntityManager.new, []⟩⟩).systems.2
      = [Obs6.procSeen []])
    ∧ (0 : Nat) ∉ ([] : List Nat) := by
  have h := created_entity_invisible_same_tick_visible_next EntityManager.new
    [] [] (by decide)
  exact ⟨by simpa [EntityManager.new] using h.1, by decide⟩
